import Mathlib

/-
Verification of the appointment-management agent graph
(src/react_agent/graph.py, src/react_agent/tools.py) against its
natural-language specification.

The shallow embedding below translates each node and routing function of the
graph into a Lean function.  Nodes that invoke the external language-model
collaborator are parameterized over the collaborator's response, so that the
theorems quantify over all possible responses.  The graph's wiring (the
`builder.add_edge` / `builder.add_conditional_edges` calls) becomes the
transition function `graphNext`.
-/

namespace ReactAgent

/-- Role of a chat message (langchain message class, collapsed to its role). -/
inductive Role where
  | system
  | user
  | assistant
  | tool
deriving DecidableEq

/-- A structured tool-call request carried by an assistant message. -/
structure ToolCall where
  name : String
  args : String
deriving DecidableEq

/-- A chat message: role, textual content, tool-call requests (empty for
non-assistant messages), and an optional externally assigned identifier. -/
structure Message where
  role : Role
  content : String
  tool_calls : List ToolCall
  id : Option String
deriving DecidableEq

/-- An appointment record (tools.py, class Appointment). -/
structure Appointment where
  id : Int
  time : String
  description : String
deriving DecidableEq

/-- The conversation state threaded through the graph
(fields of `State` in state.py, as listed by the spec's data model). -/
structure State where
  messages : List Message
  router_stage : Int
  reschedule_or_cancel_decision : Int
  appointments : List Appointment
  appointment_id : Int
  is_last_step : Bool
deriving DecidableEq

/-- A partial state update returned by a node (a Python dict with a subset of
the state's keys).  `messages` is a list of messages handed to the message
reducer; `[]` means the node did not touch the history. -/
structure NodeUpdate where
  messages : List Message
  router_stage : Option Int
  reschedule_or_cancel_decision : Option Int
  appointments : Option (List Appointment)
  appointment_id : Option Int
deriving DecidableEq

/-- The empty update: the node changed nothing. -/
def emptyUpdate : NodeUpdate :=
  { messages := []
    router_stage := none
    reschedule_or_cancel_decision := none
    appointments := none
    appointment_id := none }

/-- Python exceptions that the embedded code can raise. -/
inductive PyError where
  | valueError (msg : String)
  | indexError
deriving DecidableEq

deriving instance DecidableEq for Except

/-- Whitespace characters stripped by Python `int()` before parsing. -/
def isSpaceChar (c : Char) : Bool :=
  c = ' ' || c = '\t' || c = '\n' || c = '\r' || c = '\x0b' || c = '\x0c'

/-- Decimal digit test. -/
def isDigitChar (c : Char) : Bool :=
  '0' ≤ c && c ≤ '9'

/-- Value of a decimal numeral, most significant digit first. -/
def digitsToNat (ds : List Char) : Nat :=
  ds.foldl (fun a c => 10 * a + (c.toNat - '0'.toNat)) 0

/-- Model of Python `int(s)` on ASCII decimal input: surrounding whitespace is
stripped, then an optional sign followed by one or more decimal digits is
accepted; anything else raises `ValueError` (modelled as `none`). -/
def parsePyInt (s : String) : Option Int :=
  let cs := ((s.toList.dropWhile isSpaceChar).reverse.dropWhile isSpaceChar).reverse
  let signed : Bool × List Char :=
    match cs with
    | '-' :: rest => (true, rest)
    | '+' :: rest => (false, rest)
    | _ => (false, cs)
  if !signed.2.isEmpty && signed.2.all isDigitChar then
    some (if signed.1 then -(digitsToNat signed.2 : Int) else (digitsToNat signed.2 : Int))
  else none

/-- Do two messages carry the same (present) identifier?  Messages without an
identifier never collide: the reducer assigns them fresh ids on insertion. -/
def idMatches (o m : Message) : Bool :=
  match m.id, o.id with
  | some i, some j => i = j
  | _, _ => false

/-- Insert one returned message into the history: substitute for an existing
message carrying the same identifier if there is one, append otherwise. -/
def addOne (old : List Message) (m : Message) : List Message :=
  if old.any (fun o => idMatches o m) then
    old.map (fun o => if idMatches o m then m else o)
  else old ++ [m]

/-- Modelled from the spec: the reducer of the state's `messages` channel.
The field is declared in state.py, which is not part of the provided source;
per the spec the history is "append-only; never reordered or truncated
mid-run except for the explicit budget-exceeded substitution", where the
substituted message carries the identifier of the message it replaces. -/
def addMessages (old upd : List Message) : List Message :=
  upd.foldl addOne old

/-- Merge a node's partial update into the state (langgraph channel merge:
`messages` goes through the reducer, the other keys overwrite when present).
`is_last_step` is managed by the scheduler, never by a node update. -/
def applyUpdate (s : State) (u : NodeUpdate) : State :=
  { messages := addMessages s.messages u.messages
    router_stage := u.router_stage.getD s.router_stage
    reschedule_or_cancel_decision :=
      u.reschedule_or_cancel_decision.getD s.reschedule_or_cancel_decision
    appointments := u.appointments.getD s.appointments
    appointment_id := u.appointment_id.getD s.appointment_id
    is_last_step := s.is_last_step }

/-- The stage-router node (graph.py, `router`): parses the classifier
response's content with `int` and writes the result to `router_stage`.
A response that `int` cannot parse raises `ValueError`. -/
def router (responseContent : String) : Except PyError NodeUpdate :=
  match parsePyInt responseContent with
  | some stage => Except.ok { emptyUpdate with router_stage := some stage }
  | none => Except.error (PyError.valueError "invalid literal for int with base 10")

/-- The reschedule-or-cancel classifier node (graph.py,
`determine_reschedule_or_cancel`): same parsing as `router`, writes
`reschedule_or_cancel_decision`. -/
def determine_reschedule_or_cancel (responseContent : String) : Except PyError NodeUpdate :=
  match parsePyInt responseContent with
  | some d => Except.ok { emptyUpdate with reschedule_or_cancel_decision := some d }
  | none => Except.error (PyError.valueError "invalid literal for int with base 10")

/-- The appointment-selection classifier node (graph.py,
`determine_appointment_to_cancel`): same parsing, writes `appointment_id`. -/
def determine_appointment_to_cancel (responseContent : String) : Except PyError NodeUpdate :=
  match parsePyInt responseContent with
  | some i => Except.ok { emptyUpdate with appointment_id := some i }
  | none => Except.error (PyError.valueError "invalid literal for int with base 10")

/-- Fixed text of the reschedule-escalation message (graph.py,
`reschedule_message_node`). -/
def escalationText : String :=
  "Let me escalate this with a real person."

/-- Fixed text of the reschedule-suggestion message (graph.py,
`suggest_reschedule_node`). -/
def suggestionText : String :=
  "I would love to cancel the appointment but would you like to reschedule instead?"

/-- Fixed text of the cancellation-confirmation message (graph.py,
`confirmation_message_node`). -/
def confirmationText : String :=
  "I will cancel the appointment for you! Thank you!"

/-- Fixed text of the step-budget fallback message (graph.py, `call_model`). -/
def fallbackText : String :=
  "Sorry, I could not find an answer to your question in the specified number of steps."

/-- graph.py, `reschedule_message_node`: returns one fixed assistant message. -/
def reschedule_message_node (state : State) : NodeUpdate :=
  { emptyUpdate with messages := [⟨Role.assistant, escalationText, [], none⟩] }

/-- graph.py, `suggest_reschedule_node`: returns one fixed assistant message. -/
def suggest_reschedule_node (state : State) : NodeUpdate :=
  { emptyUpdate with messages := [⟨Role.assistant, suggestionText, [], none⟩] }

/-- graph.py, `confirmation_message_node`: returns one fixed assistant message. -/
def confirmation_message_node (state : State) : NodeUpdate :=
  { emptyUpdate with messages := [⟨Role.assistant, confirmationText, [], none⟩] }

/-- tools.py, `get_appointments`: the data-source collaborator; returns the
fixed two-element fixture list. -/
def get_appointments : List Appointment :=
  [⟨1, "2025-01-01 10:00:00", "Home cleaning service"⟩,
   ⟨2, "2025-01-05 14:00:00", "Plumbing repair"⟩]

/-- graph.py, `get_appointments_node`: stores the list returned by the
data-source collaborator verbatim into the state.  The node is parameterized
over the fetched list; the concrete collaborator is `get_appointments`. -/
def get_appointments_node (fetched : List Appointment) : NodeUpdate :=
  { emptyUpdate with appointments := some fetched }

/-- graph.py, `call_model`: returns the model's response, except that when the
step budget is exhausted and the response still requests a tool call, the
fixed fallback message carrying the response's identifier is returned
instead.  Parameterized over the model's response. -/
def call_model (state : State) (response : Message) : NodeUpdate :=
  if state.is_last_step && !response.tool_calls.isEmpty then
    { emptyUpdate with messages := [⟨Role.assistant, fallbackText, [], response.id⟩] }
  else
    { emptyUpdate with messages := [response] }

/-- The nodes of the compiled graph, plus the start and end pseudo-nodes. -/
inductive Node where
  | start
  | routerNode
  | call_model
  | tools
  | get_appointments_node
  | suggest_reschedule_node
  | determine_reschedule_or_cancel
  | determine_appointment_to_cancel
  | confirmation_message_node
  | reschedule_message_node
  | END
deriving DecidableEq

/-- graph.py, `route_from_router`: the conditional edge out of the stage
router. -/
def route_from_router (state : State) : Node :=
  if state.router_stage = 1 then Node.get_appointments_node
  else if state.router_stage = 2 then Node.call_model
  else Node.determine_reschedule_or_cancel

/-- Python class name of a message with the given role (langchain message
classes), used in the `ValueError` text of `route_model_output`. -/
def pyClassName : Role → String
  | Role.system => "SystemMessage"
  | Role.user => "HumanMessage"
  | Role.assistant => "AIMessage"
  | Role.tool => "ToolMessage"

/-- graph.py, `route_model_output`: the conditional edge out of `call_model`.
Raises `ValueError` when the last message is not an `AIMessage` (and
`IndexError` when the history is empty, from `state.messages[-1]`). -/
def route_model_output (state : State) : Except PyError Node :=
  match state.messages.getLast? with
  | none => Except.error PyError.indexError
  | some last =>
    if last.role = Role.assistant then
      if last.tool_calls.isEmpty then Except.ok Node.END
      else Except.ok Node.tools
    else
      Except.error (PyError.valueError
        ("Expected AIMessage in output edges, but got " ++ pyClassName last.role))

/-- graph.py, `route_after_reschedule_or_cancel`: the conditional edge out of
the reschedule-or-cancel classifier. -/
def route_after_reschedule_or_cancel (state : State) : Node :=
  if state.reschedule_or_cancel_decision = 2 then Node.determine_appointment_to_cancel
  else Node.reschedule_message_node

/-- The graph's transition function, assembled from the `builder.add_edge` and
`builder.add_conditional_edges` calls in graph.py.  The `END` pseudo-node is
absorbing. -/
def graphNext (n : Node) (s : State) : Except PyError Node :=
  match n with
  | Node.start => Except.ok Node.routerNode
  | Node.routerNode => Except.ok (route_from_router s)
  | Node.call_model => route_model_output s
  | Node.tools => Except.ok Node.call_model
  | Node.get_appointments_node => Except.ok Node.suggest_reschedule_node
  | Node.suggest_reschedule_node => Except.ok Node.END
  | Node.determine_reschedule_or_cancel => Except.ok (route_after_reschedule_or_cancel s)
  | Node.determine_appointment_to_cancel => Except.ok Node.confirmation_message_node
  | Node.confirmation_message_node => Except.ok Node.END
  | Node.reschedule_message_node => Except.ok Node.END
  | Node.END => Except.ok Node.END

/-- Reachability along the graph's transition function: `Reach a b` holds when
some sequence of states drives the graph from node `a` to node `b`. -/
inductive Reach : Node → Node → Prop where
  | refl (n : Node) : Reach n n
  | step (a b c : Node) (s : State) :
      graphNext a s = Except.ok b → Reach b c → Reach a c

/-- Mapping the substitution function over messages none of which match the
incoming id leaves the list unchanged. -/
lemma map_noMatch (old : List Message) (m : Message)
    (h : ∀ o ∈ old, idMatches o m = false) :
    old.map (fun o => if idMatches o m then m else o) = old := by
  induction old with
  | nil => rfl
  | cons a l ih =>
    have ha := h a (List.mem_cons_self a l)
    simp [ha, ih fun o ho => h o (List.mem_cons_of_mem a ho)]

/-- When no existing message matches the incoming id, `addOne` appends. -/
lemma addOne_noMatch (old : List Message) (m : Message)
    (h : ∀ o ∈ old, idMatches o m = false) : addOne old m = old ++ [m] := by
  have hany : old.any (fun o => idMatches o m) = false := by
    rw [List.any_eq_false]
    intro o ho
    simp [h o ho]
  simp [addOne, hany]

/-- A message without an identifier is always appended. -/
lemma addOne_id_none (old : List Message) (m : Message) (h : m.id = none) :
    addOne old m = old ++ [m] :=
  addOne_noMatch old m (fun o _ => by simp [idMatches, h])

/-- The reducer never disturbs messages none of the incoming ids match: they
stay an unchanged prefix of the result. -/
lemma addMessages_extends : ∀ (upd old t : List Message),
    (∀ m ∈ upd, ∀ o ∈ old, idMatches o m = false) →
    ∃ u, addMessages (old ++ t) upd = old ++ u := by
  intro upd
  induction upd with
  | nil => exact fun old t h => ⟨t, rfl⟩
  | cons m rest ih =>
    intro old t h
    have hm : ∀ o ∈ old, idMatches o m = false :=
      fun o ho => h m (List.mem_cons_self m rest) o ho
    have hrest : ∀ m2 ∈ rest, ∀ o ∈ old, idMatches o m2 = false :=
      fun m2 hm2 o ho => h m2 (List.mem_cons_of_mem m hm2) o ho
    show ∃ u, addMessages (addOne (old ++ t) m) rest = old ++ u
    by_cases hc : (old ++ t).any (fun o => idMatches o m) = true
    · have hone : addOne (old ++ t) m =
          old ++ t.map (fun o => if idMatches o m then m else o) := by
        simp [addOne, hc, map_noMatch old m hm]
      rw [hone]
      exact ih old _ hrest
    · have hc2 : (old ++ t).any (fun o => idMatches o m) = false :=
        Bool.eq_false_iff.mpr hc
      have hone : addOne (old ++ t) m = old ++ (t ++ [m]) := by
        simp [addOne, hc2]
      rw [hone]
      exact ih old _ hrest

/-- Substituting a message whose id matches exactly one position rewrites only
that position. -/
lemma map_single_match : ∀ (old : List Message) (fb : Message) (i : Nat)
    (hi : i < old.length),
    idMatches (old.get ⟨i, hi⟩) fb = true →
    (∀ (j : Nat) (hj : j < old.length), j ≠ i → idMatches (old.get ⟨j, hj⟩) fb = false) →
    old.map (fun o => if idMatches o fb then fb else o) = old.set i fb := by
  intro old
  induction old with
  | nil => exact fun fb i hi => absurd hi (Nat.not_lt_zero i)
  | cons a l ih =>
    intro fb i hi h1 h2
    cases i with
    | zero =>
      have hla : ∀ o ∈ l, idMatches o fb = false := by
        intro o ho
        obtain ⟨⟨k, hk⟩, hko⟩ := List.mem_iff_get.mp ho
        have hfalse := h2 (k + 1) (Nat.succ_lt_succ hk) (Nat.succ_ne_zero k)
        rw [← hko]
        exact hfalse
      have h1a : idMatches a fb = true := h1
      simp [h1a, map_noMatch l fb hla]
    | succ k =>
      have hk : k < l.length := Nat.lt_of_succ_lt_succ hi
      have ha : idMatches a fb = false :=
        h2 0 (Nat.succ_pos _) (fun hcon => Nat.noConfusion hcon)
      have h2l : ∀ (j : Nat) (hj : j < l.length), j ≠ k →
          idMatches (l.get ⟨j, hj⟩) fb = false :=
        fun j hj hjk =>
          h2 (j + 1) (Nat.succ_lt_succ hj)
            (fun hcon => hjk (Nat.succ_injective hcon))
      simp [ha, ih fb k hk h1 h2l]

section Claims

/-- C1: when the step budget is exhausted (`is_last_step` true) and the
model's response still requests a tool call, `call_model` returns only the
fixed fallback message carrying the response's identifier (so no tool is
executed), and the subsequent routing ends the loop. -/
theorem c1_budget_fallback : ∀ (s : State) (response : Message),
    s.is_last_step = true → response.tool_calls ≠ [] →
    (∀ o ∈ s.messages,
      idMatches o (⟨Role.assistant, fallbackText, [], response.id⟩ : Message) = false) →
    call_model s response =
      { emptyUpdate with messages := [⟨Role.assistant, fallbackText, [], response.id⟩] }
    ∧ route_model_output (applyUpdate s (call_model s response)) = Except.ok Node.END := by
  intro s response hlast htc hfresh
  have hcond : (s.is_last_step && !response.tool_calls.isEmpty) = true := by
    simp [hlast, htc]
  have hcm : call_model s response =
      { emptyUpdate with messages := [⟨Role.assistant, fallbackText, [], response.id⟩] } := by
    simp [call_model, hcond]
  refine ⟨hcm, ?_⟩
  rw [hcm]
  have hadd : addMessages s.messages [⟨Role.assistant, fallbackText, [], response.id⟩] =
      s.messages ++ [⟨Role.assistant, fallbackText, [], response.id⟩] :=
    addOne_noMatch s.messages _ hfresh
  simp [applyUpdate, addMessages] at hadd ⊢
  simp [hadd, route_model_output, List.getLast?_concat]

/-- Witness for C1 at a concrete state and response. -/
theorem c1_budget_fallback_witness :
    call_model ⟨[], 2, 0, [], 0, true⟩ ⟨Role.assistant, "", [⟨"search", "q"⟩], some "r1"⟩ =
      { emptyUpdate with messages := [⟨Role.assistant, fallbackText, [], some "r1"⟩] } :=
  (c1_budget_fallback ⟨[], 2, 0, [], 0, true⟩
    ⟨Role.assistant, "", [⟨"search", "q"⟩], some "r1"⟩ rfl (by decide) (by decide)).1

/-- C2: the conditional edge after the stage router selects the fetch branch
exactly at stage 1, the agent loop exactly at stage 2, the
reschedule-or-cancel classifier at every other value, and never anything
else. -/
theorem c2_route_from_router : ∀ s : State,
    ((route_from_router s = Node.get_appointments_node) ↔ s.router_stage = 1)
    ∧ ((route_from_router s = Node.call_model) ↔ s.router_stage = 2)
    ∧ ((route_from_router s = Node.determine_reschedule_or_cancel) ↔
        (s.router_stage ≠ 1 ∧ s.router_stage ≠ 2))
    ∧ (route_from_router s = Node.get_appointments_node ∨
       route_from_router s = Node.call_model ∨
       route_from_router s = Node.determine_reschedule_or_cancel) := by
  intro s
  by_cases h1 : s.router_stage = 1 <;> by_cases h2 : s.router_stage = 2 <;>
    simp_all [route_from_router]

/-- C3: the code does not short-circuit on the sentinel: from the
appointment-selection node the graph proceeds unconditionally to the
confirmation node, and the confirmation message is appended, even when
`appointment_id` is −1. -/
theorem c3_sentinel_not_short_circuited : ∀ s : State,
    graphNext Node.determine_appointment_to_cancel { s with appointment_id := -1 } =
      Except.ok Node.confirmation_message_node
    ∧ (applyUpdate { s with appointment_id := -1 }
          (confirmation_message_node { s with appointment_id := -1 })).messages =
        s.messages ++ [⟨Role.assistant, confirmationText, [], none⟩] := by
  intro s
  refine ⟨rfl, ?_⟩
  simp [applyUpdate, confirmation_message_node, addMessages, addOne_id_none]

/-- C4 counterexample: the stage-router node does NOT fail on every response
that is not an integer in {1,2,3}; the content "7" parses as 7, out of
range, yet the node succeeds. -/
theorem c4_range_counterexample :
    ¬ (∀ content : String,
        ((∃ e, router content = Except.error e) ↔
          ¬ (parsePyInt content = some 1 ∨ parsePyInt content = some 2 ∨
             parsePyInt content = some 3))) := by
  intro h
  obtain ⟨e, he⟩ := (h "7").mpr (by decide)
  have hr : router "7" = Except.ok { emptyUpdate with router_stage := some 7 } := by decide
  rw [hr] at he
  exact Except.noConfusion he

/-- C4 amended: the stage-router node fails exactly when the response content
is not parseable as an integer at all (no range check); when the content
parses as any integer, the node succeeds and writes exactly that integer to
`router_stage`. -/
theorem c4_router_parse : ∀ content : String,
    ((∃ e, router content = Except.error e) ↔ parsePyInt content = none)
    ∧ (∀ n : Int, parsePyInt content = some n →
        router content = Except.ok { emptyUpdate with router_stage := some n }) := by
  intro content
  constructor
  · constructor
    · rintro ⟨e, he⟩
      cases hp : parsePyInt content with
      | none => rfl
      | some n => simp [router, hp] at he
    · intro hp
      exact ⟨PyError.valueError "invalid literal for int with base 10", by simp [router, hp]⟩
  · intro n hp
    simp [router, hp]

/-- Witness for C4 at a concrete parseable content. -/
theorem c4_router_parse_witness :
    router "2" = Except.ok { emptyUpdate with router_stage := some 2 } :=
  (c4_router_parse "2").2 2 (by decide)

/-- C5: the fetch node stores the collaborator's returned list identically
(and touches nothing else in the history); on the fixture the stored list is
the two appointments with ids 1 and 2 in that order. -/
theorem c5_fetch_identity : ∀ (s : State) (l : List Appointment),
    (applyUpdate s (get_appointments_node l)).appointments = l
    ∧ (applyUpdate s (get_appointments_node l)).messages = s.messages
    ∧ (applyUpdate s (get_appointments_node get_appointments)).appointments =
        [⟨1, "2025-01-01 10:00:00", "Home cleaning service"⟩,
         ⟨2, "2025-01-05 14:00:00", "Plumbing repair"⟩]
    ∧ get_appointments.map Appointment.id = [1, 2] :=
  fun s l => ⟨rfl, rfl, rfl, rfl⟩

/-- C6: after the agent loop the routing ends the run exactly when the last
(assistant) message has no tool calls, dispatches to the tool node exactly
when it has some, and the tool node always returns to the agent loop. -/
theorem c6_agent_loop_routing : ∀ (s : State) (last : Message),
    s.messages.getLast? = some last → last.role = Role.assistant →
    ((route_model_output s = Except.ok Node.END) ↔ last.tool_calls = [])
    ∧ ((route_model_output s = Except.ok Node.tools) ↔ last.tool_calls ≠ [])
    ∧ (∀ t : State, graphNext Node.tools t = Except.ok Node.call_model) := by
  intro s last hlast hrole
  refine ⟨?_, ?_, fun t => rfl⟩ <;>
    by_cases htc : last.tool_calls = [] <;>
      simp [route_model_output, hlast, hrole, htc]

/-- Witness for C6 at a concrete state whose last message is an assistant
response without tool calls. -/
theorem c6_agent_loop_routing_witness :
    route_model_output ⟨[⟨Role.assistant, "done", [], none⟩], 2, 0, [], 0, false⟩ =
      Except.ok Node.END :=
  ((c6_agent_loop_routing ⟨[⟨Role.assistant, "done", [], none⟩], 2, 0, [], 0, false⟩
    ⟨Role.assistant, "done", [], none⟩ rfl rfl).1).mpr rfl

/-- C7: after the reschedule-or-cancel classifier the routing selects the
appointment-selection branch exactly when the decision is 2 and the
escalation branch otherwise; from the escalation node the
appointment-selection node is unreachable. -/
theorem c7_reschedule_or_cancel_routing : ∀ s : State,
    ((route_after_reschedule_or_cancel s = Node.determine_appointment_to_cancel) ↔
        s.reschedule_or_cancel_decision = 2)
    ∧ ((route_after_reschedule_or_cancel s = Node.reschedule_message_node) ↔
        ¬ s.reschedule_or_cancel_decision = 2)
    ∧ (∀ n : Node, Reach Node.reschedule_message_node n →
        n ≠ Node.determine_appointment_to_cancel) := by
  intro s
  have hinv : ∀ a c : Node, Reach a c →
      (a = Node.reschedule_message_node ∨ a = Node.END) →
      (c = Node.reschedule_message_node ∨ c = Node.END) := by
    intro a c h
    induction h with
    | refl n => exact id
    | step a b c s2 hg _ ih =>
      intro ha
      apply ih
      rcases ha with ha | ha <;> subst ha <;>
        simp only [graphNext, Except.ok.injEq] at hg <;> subst hg <;> simp
  refine ⟨?_, ?_, ?_⟩
  · by_cases h : s.reschedule_or_cancel_decision = 2 <;>
      simp [route_after_reschedule_or_cancel, h]
  · by_cases h : s.reschedule_or_cancel_decision = 2 <;>
      simp [route_after_reschedule_or_cancel, h]
  · intro n hr
    rcases hinv _ _ hr (Or.inl rfl) with h | h <;> subst h <;> simp

/-- Witness for C7: the terminal node, reached from the escalation node, is
not the appointment-selection node. -/
theorem c7_reschedule_or_cancel_routing_witness :
    Node.END ≠ Node.determine_appointment_to_cancel :=
  (c7_reschedule_or_cancel_routing ⟨[], 0, 1, [], 0, false⟩).2.2 Node.END
    (Reach.step Node.reschedule_message_node Node.END Node.END
      ⟨[], 0, 1, [], 0, false⟩ rfl (Reach.refl Node.END))

/-- C8: each terminal message node appends exactly its one fixed assistant
message and changes nothing else in the state. -/
theorem c8_terminal_message_nodes : ∀ s : State,
    applyUpdate s (reschedule_message_node s) =
      { s with messages := s.messages ++ [⟨Role.assistant, escalationText, [], none⟩] }
    ∧ applyUpdate s (suggest_reschedule_node s) =
      { s with messages := s.messages ++ [⟨Role.assistant, suggestionText, [], none⟩] }
    ∧ applyUpdate s (confirmation_message_node s) =
      { s with messages := s.messages ++ [⟨Role.assistant, confirmationText, [], none⟩] } := by
  intro s
  refine ⟨?_, ?_, ?_⟩ <;>
    simp [applyUpdate, reschedule_message_node, suggest_reschedule_node,
      confirmation_message_node, emptyUpdate, addMessages, addOne_id_none]

/-- C9: the message history is append-only — any update whose identifiers are
all fresh leaves the existing messages an unchanged prefix — and the single
exception, a message carrying the identifier of exactly one existing message,
replaces only that message. -/
theorem c9_append_only :
    (∀ (s : State) (u : NodeUpdate),
        (applyUpdate s u).messages = addMessages s.messages u.messages)
    ∧ (∀ (old upd : List Message),
        (∀ m ∈ upd, ∀ o ∈ old, idMatches o m = false) →
        ∃ u, addMessages old upd = old ++ u)
    ∧ (∀ (old : List Message) (fb : Message) (i : Nat) (hi : i < old.length),
        idMatches (old.get ⟨i, hi⟩) fb = true →
        (∀ (j : Nat) (hj : j < old.length), j ≠ i →
          idMatches (old.get ⟨j, hj⟩) fb = false) →
        addMessages old [fb] = old.set i fb) := by
  refine ⟨fun s u => rfl, ?_, ?_⟩
  · intro old upd h
    have := addMessages_extends upd old [] h
    simpa using this
  · intro old fb i hi h1 h2
    have hany : old.any (fun o => idMatches o fb) = true :=
      List.any_eq_true.mpr ⟨old.get ⟨i, hi⟩, List.get_mem old i hi, h1⟩
    show addOne old fb = old.set i fb
    simp [addOne, hany, map_single_match old fb i hi h1 h2]

/-- Witness for C9: a fresh-id update appends; a matching-id update replaces
only the matching message. -/
theorem c9_append_only_witness :
    (∃ u, addMessages [⟨Role.user, "hi", [], some "a"⟩]
        [⟨Role.assistant, "ok", [], some "b"⟩] =
        [⟨Role.user, "hi", [], some "a"⟩] ++ u)
    ∧ addMessages
        [⟨Role.user, "hi", [], some "a"⟩, ⟨Role.assistant, "x", [], some "b"⟩]
        [⟨Role.assistant, fallbackText, [], some "b"⟩] =
      [⟨Role.user, "hi", [], some "a"⟩,
       ⟨Role.assistant, "x", [], some "b"⟩].set 1
        ⟨Role.assistant, fallbackText, [], some "b"⟩ :=
  ⟨c9_append_only.2.1 [⟨Role.user, "hi", [], some "a"⟩]
      [⟨Role.assistant, "ok", [], some "b"⟩] (by decide),
   c9_append_only.2.2
      [⟨Role.user, "hi", [], some "a"⟩, ⟨Role.assistant, "x", [], some "b"⟩]
      ⟨Role.assistant, fallbackText, [], some "b"⟩ 1 (by decide) (by decide) (by decide)⟩

/-- C10: when the last message is not an assistant response, the routing
function after the agent loop raises `ValueError` instead of returning a next
node. -/
theorem c10_nonassistant_value_error : ∀ (s : State) (last : Message),
    s.messages.getLast? = some last → last.role ≠ Role.assistant →
    route_model_output s = Except.error (PyError.valueError
      ("Expected AIMessage in output edges, but got " ++ pyClassName last.role)) := by
  intro s last hlast hrole
  simp [route_model_output, hlast, hrole]

/-- Witness for C10 at a concrete state ending in a user message. -/
theorem c10_nonassistant_value_error_witness :
    route_model_output ⟨[⟨Role.user, "hi", [], none⟩], 2, 0, [], 0, false⟩ =
      Except.error (PyError.valueError
        "Expected AIMessage in output edges, but got HumanMessage") := by
  rw [c10_nonassistant_value_error ⟨[⟨Role.user, "hi", [], none⟩], 2, 0, [], 0, false⟩
    ⟨Role.user, "hi", [], none⟩ rfl (by decide)]
  decide

end Claims

end ReactAgent
